import Mathlib

/-!
Verification development for the x402 payment verification and settlement
engine (`src/reputation-oracle/src/x402/MerchantExecutor.ts`).

The TypeScript engine is shallowly embedded as executable Lean definitions:

* JavaScript values that may be a string, a number, absent, or null are
  modelled by `Option JsVal`; JavaScript numbers are idealized as exact
  integers (`Int`) or exact rationals (`ℚ` for prices), never floating point.
* `BigInt(x)` and `Number(x)` on authorization fields are modelled by
  `parseDecInt` for integer-denoting decimal strings; any other string is
  treated as a conversion failure (`BigInt` throws, `Number` yields NaN).
* Cryptographic signature recovery (`ethers.verifyTypedData`) and signature
  parsing (`ethers.Signature.from`) are oracles passed in as function
  parameters returning `Except`, mirroring calls that may throw.
* Network I/O (the facilitator HTTP call, the on-chain transaction) is
  modelled by explicit outcome parameters (`FacOutcome`, `ChainOutcome`),
  and `Date.now()` by an explicit clock parameter `now : Nat` (seconds).
* Thrown exceptions are modelled with `Except`; try/catch blocks in the
  source become `match` on the `Except` value.
-/

namespace X402

/-- Settlement mode of the merchant executor (source: `SettlementMode`). -/
inductive SettlementMode where
  | facilitator
  | direct
deriving DecidableEq, Repr

/-- A JavaScript value arriving in an untyped JSON payload field: either a
string or a number (numbers idealized as exact integers). Absence (undefined
or null) is modelled by wrapping in `Option`. -/
inductive JsVal where
  | vStr (s : String)
  | vNum (n : Int)
deriving DecidableEq, Repr

/-- The EIP-3009 authorization object carried in `payload.payload.authorization`.
Every field may be absent in an untyped payload, hence the `Option`s.
The source field `from` is called `fromAddr` (`from` is a Lean keyword). -/
structure Authorization where
  fromAddr : Option String
  toAddr : Option String
  value : Option JsVal
  validAfter : Option JsVal
  validBefore : Option JsVal
  nonce : Option String
deriving DecidableEq, Repr

/-- The signed payment payload (source type `PaymentPayload`); the nested
`payload.payload` object is flattened into the `authorization` and
`signature` fields. -/
structure PaymentPayload where
  network : String
  scheme : String
  authorization : Option Authorization
  signature : Option String
deriving DecidableEq, Repr

/-- Payment requirements built by the constructor (source type
`PaymentRequirements`); `extra.name` / `extra.version` are flattened into
`extraName` / `extraVersion`. -/
structure PaymentRequirements where
  scheme : String
  network : String
  asset : String
  payTo : String
  maxAmountRequired : String
  resource : String
  description : String
  mimeType : String
  maxTimeoutSeconds : Nat
  extraName : String
  extraVersion : String
deriving DecidableEq, Repr

/-- Result of verification (source interface `VerifyResult`). -/
structure VerifyResult where
  isValid : Bool
  payer : Option String := none
  invalidReason : Option String := none
deriving DecidableEq, Repr

/-- Result of settlement (source interface `SettlementResult`). -/
structure SettlementResult where
  success : Bool
  transaction : Option String := none
  network : String
  payer : Option String := none
  errorReason : Option String := none
deriving DecidableEq, Repr

/-! ### JavaScript numeric and truthiness helpers -/

/-- Accumulates the value of a list of decimal digit characters, failing on a
non-digit character. -/
def decDigitsVal (cs : List Char) : Option Nat :=
  cs.foldl
    (fun acc c =>
      match acc with
      | none => none
      | some n => if c.isDigit then some (n * 10 + (c.toNat - 48)) else none)
    (some 0)

/-- Model of JavaScript integer parsing of a decimal string, shared by
`BigInt(s)` and `Number(s)` on authorization fields. The empty string parses
to 0 (as in JavaScript); a string that is not an optionally negated run of
decimal digits is a parse failure (`BigInt` throws, `Number` yields NaN). -/
def parseDecInt (s : String) : Option Int :=
  match s.toList with
  | [] => some 0
  | c :: cs =>
    if c = '-' then
      match cs with
      | [] => none
      | _ => (decDigitsVal cs).map (fun n => -(n : Int))
    else
      (decDigitsVal (c :: cs)).map (fun n => (n : Int))

/-- Model of the `BigInt` conversion applied to `authorization.value` in local
verification: an absent value throws, a number converts directly, a string
parses as a decimal integer. -/
def jsBigInt (v : Option JsVal) : Option Int :=
  match v with
  | none => none
  | some (JsVal.vNum n) => some n
  | some (JsVal.vStr s) => parseDecInt s

/-- Model of `Number(x ?? 0)` on an optional timing field: a missing (or null)
field is replaced by 0 before conversion; `none` models NaN. -/
def jsTimingNumber (v : Option JsVal) : Option Int :=
  match v with
  | none => some 0
  | some (JsVal.vNum n) => some n
  | some (JsVal.vStr s) => parseDecInt s

/-- JavaScript truthiness of an optional string (used for `!signature`,
`options.privateKey ? ...`): absent, null and the empty string are falsy. -/
def optTruthy (s : Option String) : Bool :=
  match s with
  | none => false
  | some v => v != ""

/-- JavaScript truthiness of an optional `JsVal` (used for
`!authorization.value` and the timing ternaries in settlement): absent
values, the empty string and the number 0 are falsy. -/
def jsTruthyVal (v : Option JsVal) : Bool :=
  match v with
  | none => false
  | some (JsVal.vStr s) => s != ""
  | some (JsVal.vNum n) => n != 0

/-- Model of the JavaScript falsy-or `a || b` on strings: the empty string
falls through to the default. -/
def jsOrStr (a b : String) : String := if a = "" then b else a

/-- Model of `a || b` where `a` is an optional string and the result of the
fallback is itself optional: absent and empty strings fall through. -/
def jsOrOpt (a : Option String) (b : Option String) : Option String :=
  match a with
  | some s => if s = "" then b else some s
  | none => b

/-- Model of `a || b` where `a` is an optional string and `b` a string. -/
def jsOrOptStr (a : Option String) (b : String) : String :=
  match a with
  | some s => if s = "" then b else s
  | none => b

/-- Substring containment, modelling `String.prototype.includes`. -/
def strContains (s pat : String) : Bool := decide (pat.toList <:+: s.toList)

/-- Model of `String.prototype.toLowerCase` (ASCII case mapping, which is all
that addresses use). Defined over the character list so that it evaluates in
the kernel. -/
def jsToLower (s : String) : String := String.mk (s.toList.map Char.toLower)

/-! ### Failure reasons of local verification (verbatim source strings) -/

def missingAuthReason : String :=
  "Missing payment authorization data. Expected payload.payload.authorization and payload.payload.signature"

def networkMismatchReason (payloadNetwork reqNetwork : String) : String :=
  "Network mismatch: " ++ payloadNetwork ++ " vs " ++ reqNetwork

def recipientMismatchReason : String :=
  "Authorization recipient does not match payment requirement"

def amountInsufficientReason : String :=
  "Authorized amount is less than required amount"

def invalidAmountReason : String := "Invalid payment amount provided"

def invalidTimingReason : String := "Invalid authorization timing fields"

def notYetValidReason : String := "Payment authorization is not yet valid"

def expiredReason : String := "Payment authorization has expired"

def sigFailedReason (e : String) : String := "Signature verification failed: " ++ e

def sigMismatchReason (expected got : String) : String :=
  "Signature does not match payer address. Expected " ++ expected ++ ", got " ++ got

/-- Model of the runtime error message raised by
`authorization.from.toLowerCase()` when `from` is absent; it is caught by the
surrounding try block and wrapped by `sigFailedReason`. -/
def undefinedFromError : String :=
  "Cannot read properties of undefined (reading toLowerCase)"

/-! ### Local verification (`verifyPaymentLocally`) -/

/-- The recipient comparison of local verification, transcribing
`authorization.to?.toLowerCase() !== requirements.payTo.toLowerCase()`
(here in its positive form): an absent `to` never matches. -/
def recipientMatches (toAddr : Option String) (payTo : String) : Bool :=
  match toAddr with
  | some t => jsToLower t == jsToLower payTo
  | none => false

/-- The amount check of local verification: both the required amount and the
authorized amount are converted with `BigInt` inside one try block (a failure
of either conversion yields the invalid-amount reason); the authorized amount
failing `authorizedAmount < requiredAmount` yields the insufficiency reason.
Returns the failure reason, or `none` on success. -/
def amountCheck (maxAmountRequired : String) (value : Option JsVal) : Option String :=
  match parseDecInt maxAmountRequired, jsBigInt value with
  | some required, some amount =>
    if amount < required then some amountInsufficientReason else none
  | _, _ => some invalidAmountReason

/-- The timing comparisons of local verification on already-converted numbers:
`validAfterNum > now` fails as not yet valid, then `validBeforeNum <= now`
fails as expired. `now` is `Math.floor(Date.now() / 1000)`, a natural
number of seconds. -/
def timingCheck (now : Nat) (validAfterNum validBeforeNum : Int) : Option String :=
  if validAfterNum > (now : Int) then some notYetValidReason
  else if validBeforeNum ≤ (now : Int) then some expiredReason
  else none

/-- The full timing section of local verification: convert
`authorization.validAfter ?? 0` and `authorization.validBefore ?? 0` with
`Number`, reject NaN with the invalid-timing reason, then compare. -/
def timingSection (now : Nat) (validAfter validBefore : Option JsVal) : Option String :=
  match jsTimingNumber validAfter, jsTimingNumber validBefore with
  | some a, some b => timingCheck now a b
  | _, _ => some invalidTimingReason

/-- EIP-712 domain passed to signature recovery. -/
structure Eip712Domain where
  name : String
  version : String
  chainId : Option Nat
  verifyingContract : String
deriving DecidableEq, Repr

/-- Engine state fixed at construction and read by local verification
(source fields `this.assetName`, `this.chainId`). -/
structure EngineCtx where
  assetName : String
  chainId : Option Nat
deriving DecidableEq, Repr

/-- Transcription of `buildEip712Domain`: `extra.name` and `extra.version`
fall back (falsy-or) to the constructor-resolved asset name and "2". -/
def buildEip712Domain (ctx : EngineCtx) (reqs : PaymentRequirements) : Eip712Domain :=
  { name := jsOrStr reqs.extraName ctx.assetName
    version := jsOrStr reqs.extraVersion "2"
    chainId := ctx.chainId
    verifyingContract := reqs.asset }

/-- Oracle for `ethers.verifyTypedData`: given the domain, the authorization
message fields and the signature, either recovers an address or throws. -/
abbrev Recover := Eip712Domain → Authorization → String → Except String String

/-- The EIP-712 recovery stage of local verification: the whole block is one
try; a throw from recovery (or from `.toLowerCase()` on an absent `from`)
is caught and wrapped; a recovered address differing case-insensitively from
`authorization.from` is a mismatch; otherwise the result is valid with the
recovered payer. -/
def signatureStage (recover : Recover) (ctx : EngineCtx) (reqs : PaymentRequirements)
    (auth : Authorization) (sig : String) : VerifyResult :=
  match recover (buildEip712Domain ctx reqs) auth sig with
  | Except.error e => { isValid := false, invalidReason := some (sigFailedReason e) }
  | Except.ok recovered =>
    match auth.fromAddr with
    | none => { isValid := false, invalidReason := some (sigFailedReason undefinedFromError) }
    | some fromAddr =>
      if jsToLower recovered = jsToLower fromAddr then
        { isValid := true, payer := some recovered }
      else
        { isValid := false, invalidReason := some (sigMismatchReason fromAddr recovered) }

/-- Transcription of `verifyPaymentLocally`: structural check (an absent
authorization or an absent/empty signature is falsy), network match,
case-insensitive recipient match, big-integer amount check, timing check,
then EIP-712 signature recovery. -/
def verifyPaymentLocally (recover : Recover) (ctx : EngineCtx) (now : Nat)
    (payload : PaymentPayload) (reqs : PaymentRequirements) : VerifyResult :=
  match payload.authorization, payload.signature with
  | some auth, some sig =>
    if sig = "" then { isValid := false, invalidReason := some missingAuthReason }
    else if payload.network ≠ reqs.network then
      { isValid := false
        invalidReason := some (networkMismatchReason payload.network reqs.network) }
    else if ¬ recipientMatches auth.toAddr reqs.payTo then
      { isValid := false, invalidReason := some recipientMismatchReason }
    else
      match amountCheck reqs.maxAmountRequired auth.value with
      | some r => { isValid := false, invalidReason := some r }
      | none =>
        match timingSection now auth.validAfter auth.validBefore with
        | some r => { isValid := false, invalidReason := some r }
        | none => signatureStage recover ctx reqs auth sig
  | _, _ => { isValid := false, invalidReason := some missingAuthReason }

/-! ### Price conversion (`getAtomicAmount`) -/

/-- The atomic amount as an integer: `Math.floor(priceUsd * 1_000_000)`.
The JavaScript number `priceUsd` is modelled as an exact rational. -/
def atomicUnits (priceUsd : ℚ) : Int := ⌊priceUsd * 1000000⌋

/-- Transcription of `getAtomicAmount`: the floored scaled price rendered as a
decimal string. -/
def getAtomicAmount (priceUsd : ℚ) : String := toString (atomicUnits priceUsd)

/-! ### Built-in network registry and constructor -/

/-- One entry of the built-in network registry. -/
structure BuiltinCfg where
  chainId : Option Nat
  assetAddress : String
  assetName : String
  explorer : Option String
deriving DecidableEq, Repr

/-- Transcription of the `BUILT_IN_NETWORKS` table. -/
def builtinNetworks (n : String) : Option BuiltinCfg :=
  if n = "base" then
    some { chainId := some 8453, assetAddress := "0x833589fCD6eDb6E08f4c7C32D4f71b54bdA02913",
           assetName := "USD Coin", explorer := some "https://basescan.org" }
  else if n = "base-sepolia" then
    some { chainId := some 84532, assetAddress := "0x036CbD53842c5426634e7929541eC2318f3dCF7e",
           assetName := "USDC", explorer := some "https://sepolia.basescan.org" }
  else if n = "polygon" then
    some { chainId := some 137, assetAddress := "0x3c499c542cEF5E3811e1192ce70d8cC03d5c3359",
           assetName := "USD Coin", explorer := some "https://polygonscan.com" }
  else if n = "polygon-amoy" then
    some { chainId := some 80002, assetAddress := "0x41E94Eb019C0762f9Bfcf9Fb1E58725BfB0e7582",
           assetName := "USDC", explorer := some "https://amoy.polygonscan.com" }
  else if n = "avalanche-fuji" then
    some { chainId := some 43113, assetAddress := "0x5425890298aed601595a70AB815c96711a31Bc65",
           assetName := "USD Coin", explorer := some "https://testnet.snowtrace.io" }
  else if n = "avalanche" then
    some { chainId := some 43114, assetAddress := "0xB97EF9Ef8734C71904D8002F8b6Bc66Dd9c48a6E",
           assetName := "USD Coin", explorer := some "https://snowtrace.io" }
  else if n = "iotex" then
    some { chainId := some 4689, assetAddress := "0xcdf79194c6c285077a58da47641d4dbe51f63542",
           assetName := "Bridged USDC", explorer := some "https://iotexscan.io" }
  else if n = "sei" then
    some { chainId := some 1329, assetAddress := "0xe15fc38f6d8c56af07bbcbe3baf5708a2bf42392",
           assetName := "USDC", explorer := some "https://sei.explorers.guru" }
  else if n = "sei-testnet" then
    some { chainId := some 1328, assetAddress := "0x4fcf1784b31630811181f670aea7a7bef803eaed",
           assetName := "USDC", explorer := some "https://testnet.sei.explorers.guru" }
  else if n = "peaq" then
    some { chainId := some 3338, assetAddress := "0xbbA60da06c2c5424f03f7434542280FCAd453d10",
           assetName := "USDC", explorer := some "https://scan.peaq.network" }
  else if n = "solana-devnet" then
    some { chainId := none, assetAddress := "4zMMC9srt5Ri5X14GAgXhaHii3GnPAEERYPJgZJDncDU",
           assetName := "USDC", explorer := some "https://explorer.solana.com/?cluster=devnet" }
  else if n = "solana" then
    some { chainId := none, assetAddress := "EPjFWdd5AufqSSqeM2qN1xzybapC8G4wEGGkZwyTDt1v",
           assetName := "USDC", explorer := some "https://explorer.solana.com" }
  else none

/-- Constructor options (source interface `MerchantExecutorOptions`). -/
structure MerchantExecutorOptions where
  payToAddress : String
  network : String
  price : ℚ
  facilitatorUrl : Option String := none
  facilitatorApiKey : Option String := none
  resourceUrl : Option String := none
  settlementMode : Option SettlementMode := none
  rpcUrl : Option String := none
  privateKey : Option String := none
  assetAddress : Option String := none
  assetName : Option String := none
  explorerUrl : Option String := none
  chainId : Option Nat := none
deriving DecidableEq, Repr

/-- Constructed engine state (the private fields of `MerchantExecutor`);
a configured settlement wallet is recorded as `walletConfigured`. -/
structure Engine where
  requirements : PaymentRequirements
  explorerUrl : Option String
  mode : SettlementMode
  facilitatorUrl : Option String
  facilitatorApiKey : Option String
  walletConfigured : Bool
  network : String
  assetName : String
  chainId : Option Nat
deriving Repr

def defaultFacilitatorUrl : String := "https://x402.org/facilitator"

/-- Transcription of `getDefaultRpcUrl`. -/
def getDefaultRpcUrl (network : String) : Option String :=
  if network = "base" then some "https://mainnet.base.org"
  else if network = "base-sepolia" then some "https://sepolia.base.org"
  else if network = "polygon" then some "https://polygon-rpc.com"
  else if network = "polygon-amoy" then some "https://rpc-amoy.polygon.technology"
  else if network = "avalanche" then some "https://api.avax.network/ext/bc/C/rpc"
  else if network = "avalanche-fuji" then some "https://api.avax-test.network/ext/bc/C/rpc"
  else if network = "iotex" then some "https://rpc.ankr.com/iotex"
  else if network = "sei" then some "https://sei-rpc.publicnode.com"
  else if network = "sei-testnet" then some "https://sei-testnet-rpc.publicnode.com"
  else if network = "peaq" then some "https://erpc.peaq.network"
  else none

/-- The default description chosen from the resource URL. -/
def defaultDescription (resourceUrl : Option String) : String :=
  match resourceUrl with
  | some u =>
    if strContains u "/activity" then "Agent activity registration service"
    else if strContains u "/feedback" then "Agent feedback submission service"
    else "Reputation scoring oracle query"
  | none => "Reputation scoring oracle query"

/-- Resolution of the asset address: explicit option, else registry default
(`options.assetAddress ?? builtinConfig?.assetAddress`). -/
def resolvedAssetAddress (o : MerchantExecutorOptions) : Option String :=
  o.assetAddress.orElse (fun _ => (builtinNetworks o.network).map (fun c => c.assetAddress))

/-- Resolution of the asset name. -/
def resolvedAssetName (o : MerchantExecutorOptions) : Option String :=
  o.assetName.orElse (fun _ => (builtinNetworks o.network).map (fun c => c.assetName))

/-- Resolution of the chain id. -/
def resolvedChainId (o : MerchantExecutorOptions) : Option Nat :=
  o.chainId.orElse (fun _ => (builtinNetworks o.network).bind (fun c => c.chainId))

/-- Resolution of the explorer URL. -/
def resolvedExplorer (o : MerchantExecutorOptions) : Option String :=
  o.explorerUrl.orElse (fun _ => (builtinNetworks o.network).bind (fun c => c.explorer))

/-- Normalization of the private key (`0x` prefix added if missing). -/
def normalizeKey (k : String) : String :=
  if k.startsWith "0x" then k else "0x" ++ k

def assetAddressErrorMsg (network : String) : String :=
  "Asset address must be provided for network \"" ++ network ++ "\". Set ASSET_ADDRESS in the environment."

def assetNameErrorMsg (network : String) : String :=
  "Asset name must be provided for network \"" ++ network ++ "\". Set ASSET_NAME in the environment."

/-- The payment requirements built by the constructor from the options and
the resolved asset address and name. -/
def buildRequirementsFromOptions (o : MerchantExecutorOptions)
    (addr nm : String) : PaymentRequirements :=
  { scheme := "exact"
    network := o.network
    asset := addr
    payTo := o.payToAddress
    maxAmountRequired := getAtomicAmount o.price
    resource := jsOrOptStr o.resourceUrl "https://oracle.local/query"
    description := defaultDescription o.resourceUrl
    mimeType := "application/json"
    maxTimeoutSeconds := 600
    extraName := nm
    extraVersion := "2" }

/-- The settlement-mode choice of the constructor: explicit setting first,
then private-key availability, else facilitator. -/
def chooseMode (o : MerchantExecutorOptions) : SettlementMode :=
  match o.settlementMode with
  | some m => m
  | none =>
    if optTruthy o.privateKey then SettlementMode.direct
    else SettlementMode.facilitator

/-- The engine state assembled at the end of the constructor. -/
def mkEngineFromOptions (o : MerchantExecutorOptions) (addr nm : String)
    (wallet : Bool) : Engine :=
  { requirements := buildRequirementsFromOptions o addr nm
    explorerUrl := resolvedExplorer o
    mode := chooseMode o
    facilitatorUrl :=
      if chooseMode o = SettlementMode.facilitator then
        some (jsOrOptStr o.facilitatorUrl defaultFacilitatorUrl)
      else none
    facilitatorApiKey :=
      if chooseMode o = SettlementMode.facilitator then o.facilitatorApiKey else none
    walletConfigured := wallet
    network := o.network
    assetName := nm
    chainId := resolvedChainId o }

/-- The wallet-initialization block of the constructor (only entered when a
truthy private key is supplied); yields whether a settlement wallet was
configured, or the thrown configuration error. -/
def walletSetup (walletInit : String → Except String Unit)
    (o : MerchantExecutorOptions) : Except String Bool :=
  if optTruthy o.privateKey then
    if o.network = "solana" ∨ o.network = "solana-devnet" then
      Except.error "Direct settlement is only supported on EVM networks."
    else
      match jsOrOpt o.rpcUrl (getDefaultRpcUrl o.network) with
      | none =>
        Except.error ("Direct settlement requires an RPC URL for network \"" ++ o.network ++ "\".")
      | some _rpc =>
        match resolvedChainId o with
        | none =>
          Except.error ("Direct settlement requires a numeric CHAIN_ID for network \"" ++ o.network ++ "\".")
        | some _cid =>
          match walletInit (normalizeKey (o.privateKey.getD "")) with
          | Except.error e =>
            Except.error ("Failed to initialize settlement wallet: " ++ e)
          | Except.ok _ => Except.ok true
  else Except.ok false

/-- Transcription of the `MerchantExecutor` constructor. A thrown `Error`
becomes `Except.error`. `walletInit` is the oracle for
`new ethers.Wallet(normalizedKey, provider)`, which may throw on a malformed
key. The source checks `!assetAddress` / `!assetName`, so an empty-string
value (explicit or from the registry) also fails. -/
def constructMerchant (walletInit : String → Except String Unit)
    (o : MerchantExecutorOptions) : Except String Engine :=
  match resolvedAssetAddress o with
  | none => Except.error (assetAddressErrorMsg o.network)
  | some addr =>
    if addr = "" then Except.error (assetAddressErrorMsg o.network)
    else
      match resolvedAssetName o with
      | none => Except.error (assetNameErrorMsg o.network)
      | some nm =>
        if nm = "" then Except.error (assetNameErrorMsg o.network)
        else
          match walletSetup walletInit o with
          | Except.error e => Except.error e
          | Except.ok wallet => Except.ok (mkEngineFromOptions o addr nm wallet)

/-- Whether an `Except` value is an error (the constructor threw). -/
def isErr {ε α : Type} (e : Except ε α) : Bool :=
  match e with
  | Except.error _ => true
  | Except.ok _ => false

/-! ### Facilitator delegation and the facade -/

/-- Possible outcomes of the HTTP call to the facilitator: a parsed 2xx
response body, the 10-second timeout (`AbortError`), a non-2xx status with its
body text, or a transport error. -/
inductive FacOutcome (α : Type) where
  | ok (result : α)
  | timeout
  | httpError (status : Nat) (body : String)
  | transportError (message : String)
deriving DecidableEq, Repr

/-- Transcription of `callFacilitator`: a missing facilitator URL throws; every
non-ok outcome of the bounded fetch throws with the corresponding message;
only a 2xx response yields a value. -/
def callFacilitatorModel {α : Type} (endpoint : String) (url : Option String)
    (fac : FacOutcome α) : Except String α :=
  match url with
  | none => Except.error "Facilitator URL is not configured."
  | some _ =>
    match fac with
    | FacOutcome.ok r => Except.ok r
    | FacOutcome.timeout => Except.error "Facilitator request timed out after 10 seconds"
    | FacOutcome.httpError status body =>
      Except.error ("Facilitator " ++ endpoint ++ " failed (" ++ toString status ++ "): " ++ body)
    | FacOutcome.transportError m =>
      Except.error ("Facilitator request failed: " ++ m)

/-- Transcription of the `verifyPayment` facade: in facilitator mode the
delegated call is attempted and any thrown error falls back to local
verification; in direct mode local verification is used unconditionally. -/
def verifyPayment (mode : SettlementMode) (facilitatorUrl : Option String)
    (fac : FacOutcome VerifyResult) (recover : Recover) (ctx : EngineCtx) (now : Nat)
    (payload : PaymentPayload) (reqs : PaymentRequirements) : VerifyResult :=
  match mode with
  | SettlementMode.facilitator =>
    match callFacilitatorModel "verify" facilitatorUrl fac with
    | Except.ok r => r
    | Except.error _ => verifyPaymentLocally recover ctx now payload reqs
  | SettlementMode.direct => verifyPaymentLocally recover ctx now payload reqs

/-! ### On-chain settlement (`settleOnChain`) -/

/-- Parsed signature components (`ethers.Signature.from`). -/
structure SigParts where
  v : Nat
  r : String
  s : String
deriving DecidableEq, Repr

/-- A transaction receipt as inspected by the source: `receipt?.status` and
`receipt?.hash`. -/
structure TxReceipt where
  status : Nat
  hash : String
deriving DecidableEq, Repr

/-- An error thrown while sending or awaiting the transaction, with the fields
the source classification inspects. -/
structure ChainError where
  message : String
  code : Option String
  reason : Option String
deriving DecidableEq, Repr

/-- Outcome of `transferWithAuthorization` followed by `tx.wait()`: either a
thrown error, or a mined transaction with its (possibly null) receipt. -/
inductive ChainOutcome where
  | sendError (e : ChainError)
  | mined (receipt : Option TxReceipt)
deriving DecidableEq, Repr

/-- Transcription of the catch-block classification of settlement errors into
stable operator-facing reasons. -/
def classifySettlementError (network : String) (e : ChainError) : String :=
  if strContains e.message "insufficient funds" then
    "Insufficient funds for gas. Settlement wallet needs native tokens (ETH) for " ++ network ++ "."
  else if strContains e.message "nonce" then
    "Transaction nonce error: " ++ e.message
  else if strContains e.message "revert" || optTruthy e.reason then
    "Contract revert: " ++ jsOrOptStr e.reason e.message
  else if e.code == some "ACTION_REJECTED" then "Transaction was rejected"
  else if e.code == some "NETWORK_ERROR" then "Network error during settlement"
  else e.message

def missingAuthSettleReason : String := "Missing payment authorization data"

/-- Value-field conversion in settlement: a string is parsed as a decimal big
integer, a number is stringified and re-parsed (yielding the same integer). -/
def valueToBigInt (v : JsVal) : Option Int :=
  match v with
  | JsVal.vStr s => parseDecInt s
  | JsVal.vNum n => some n

/-- Timing-field conversion in settlement:
`authorization.validAfter ? BigInt(...) : 0n` — a falsy field (absent, empty
string, or 0) becomes 0; otherwise the `BigInt` conversion may fail. -/
def timingToBigInt (v : Option JsVal) : Option Int :=
  if jsTruthyVal v then
    match v with
    | some w => valueToBigInt w
    | none => some 0
  else some 0

/-- Transcription of `settleOnChain`: wallet presence, structural check,
required-value truthiness check, defensive big-integer conversions, signature
parsing, transaction send and receipt await. Success is exactly a receipt
with status 1; a mined transaction without status 1 reports
`Transaction reverted` while carrying `receipt?.hash`. -/
def settleOnChain (walletConfigured : Bool)
    (sigParse : String → Except String SigParts) (chain : ChainOutcome)
    (payload : PaymentPayload) (reqs : PaymentRequirements) : SettlementResult :=
  if ¬ walletConfigured then
    { success := false, network := reqs.network,
      errorReason := some "Settlement wallet not configured" }
  else
    match payload.authorization, payload.signature with
    | some auth, some sig =>
      if sig = "" then
        { success := false, network := reqs.network,
          errorReason := some missingAuthSettleReason }
      else if ¬ jsTruthyVal auth.value then
        { success := false, network := reqs.network, payer := auth.fromAddr,
          errorReason := some "Missing authorization value" }
      else
        match auth.value.bind valueToBigInt, timingToBigInt auth.validAfter,
            timingToBigInt auth.validBefore with
        | some _value, some _va, some _vb =>
          match sigParse sig with
          | Except.error e =>
            { success := false, network := reqs.network, payer := auth.fromAddr,
              errorReason := some ("Invalid signature format: " ++ e) }
          | Except.ok _parts =>
            match chain with
            | ChainOutcome.sendError e =>
              { success := false, network := reqs.network, payer := auth.fromAddr,
                errorReason := some (classifySettlementError reqs.network e) }
            | ChainOutcome.mined receipt =>
              let ok : Bool :=
                match receipt with
                | some r => r.status == 1
                | none => false
              { success := ok
                transaction := receipt.map (fun r => r.hash)
                network := reqs.network
                payer := auth.fromAddr
                errorReason := if ok then none else some "Transaction reverted" }
        | _, _, _ =>
          { success := false, network := reqs.network, payer := auth.fromAddr,
            errorReason := some "Invalid authorization value format: conversion error" }
    | _, _ =>
      { success := false, network := reqs.network,
        errorReason := some missingAuthSettleReason }

/-- Transcription of the `settlePayment` facade: facilitator first with local
fallback on any thrown delegate error, or direct local settlement. -/
def settlePayment (mode : SettlementMode) (facilitatorUrl : Option String)
    (fac : FacOutcome SettlementResult) (walletConfigured : Bool)
    (sigParse : String → Except String SigParts) (chain : ChainOutcome)
    (payload : PaymentPayload) (reqs : PaymentRequirements) : SettlementResult :=
  match mode with
  | SettlementMode.facilitator =>
    match callFacilitatorModel "settle" facilitatorUrl fac with
    | Except.ok r => r
    | Except.error _ => settleOnChain walletConfigured sigParse chain payload reqs
  | SettlementMode.direct => settleOnChain walletConfigured sigParse chain payload reqs

/-! ### Specification-side definition of the ordered verification algorithm

The following definitions follow the wording of the specification (ordered
checks, short-circuiting at the first failure) and serve as the comparison
point for the refinement claim about `verifyPaymentLocally`. -/

/-- Stage 1 of the specification algorithm: authorization and signature must
both be present (an empty signature string is falsy and counts as missing). -/
def specStructuralStage (payload : PaymentPayload) : Option String :=
  match payload.authorization, payload.signature with
  | some _, some sig => if sig = "" then some missingAuthReason else none
  | _, _ => some missingAuthReason

/-- Stage 2: payload network equals requirement network. -/
def specNetworkStage (payload : PaymentPayload) (reqs : PaymentRequirements) : Option String :=
  if payload.network = reqs.network then none
  else some (networkMismatchReason payload.network reqs.network)

/-- Stage 3: authorization payee equals requirement payee case-insensitively. -/
def specRecipientStage (auth : Authorization) (reqs : PaymentRequirements) : Option String :=
  match auth.toAddr with
  | some t => if jsToLower t = jsToLower reqs.payTo then none else some recipientMismatchReason
  | none => some recipientMismatchReason

/-- Stage 4: the authorization amount, parsed as a big integer, is greater
than or equal to the required amount; a malformed amount is invalid. -/
def specAmountStage (auth : Authorization) (reqs : PaymentRequirements) : Option String :=
  match parseDecInt reqs.maxAmountRequired, jsBigInt auth.value with
  | some required, some amount =>
    if required ≤ amount then none else some amountInsufficientReason
  | _, _ => some invalidAmountReason

/-- Stage 5: timing validity. -/
def specTimingStage (now : Nat) (auth : Authorization) : Option String :=
  timingSection now auth.validAfter auth.validBefore

/-- First failure of a list of stage outcomes (short-circuit order). -/
def firstFailure : List (Option String) → Option String
  | [] => none
  | none :: rest => firstFailure rest
  | some r :: _ => some r

@[simp] theorem firstFailure_nil : firstFailure [] = none := rfl

@[simp] theorem firstFailure_cons_none (l : List (Option String)) :
    firstFailure (none :: l) = firstFailure l := rfl

@[simp] theorem firstFailure_cons_some (r : String) (l : List (Option String)) :
    firstFailure (some r :: l) = some r := rfl

/-- The specification algorithm: run the stages in order, stop at the first
failure, and only on full success of stages 1–5 perform signature recovery
(stage 6) whose success yields `valid` with the recovered payer. -/
def specVerify (recover : Recover) (ctx : EngineCtx) (now : Nat)
    (payload : PaymentPayload) (reqs : PaymentRequirements) : VerifyResult :=
  match payload.authorization, payload.signature with
  | some auth, some sig =>
    match firstFailure
        [specStructuralStage payload, specNetworkStage payload reqs,
         specRecipientStage auth reqs, specAmountStage auth reqs,
         specTimingStage now auth] with
    | some r => { isValid := false, invalidReason := some r }
    | none => signatureStage recover ctx reqs auth sig
  | _, _ => { isValid := false, invalidReason := some missingAuthReason }

/-- The amount check of the source and the amount stage of the specification
agree (the source tests `amount < required`, the specification
`required ≤ amount`). -/
theorem amountCheck_eq_specAmountStage (auth : Authorization) (reqs : PaymentRequirements) :
    amountCheck reqs.maxAmountRequired auth.value = specAmountStage auth reqs := by
  unfold amountCheck specAmountStage
  cases parseDecInt reqs.maxAmountRequired with
  | none => cases jsBigInt auth.value <;> rfl
  | some required =>
    cases jsBigInt auth.value with
    | none => rfl
    | some amount =>
      by_cases h : amount < required
      · simp [h, not_le.mpr h]
      · simp [h, not_lt.mp h]

/-- Local verification coincides with the specification algorithm on every
input: the checks run in the specified order and short-circuit at the first
failure. -/
theorem verifyPaymentLocally_eq_specVerify (recover : Recover) (ctx : EngineCtx)
    (now : Nat) (payload : PaymentPayload) (reqs : PaymentRequirements) :
    verifyPaymentLocally recover ctx now payload reqs
      = specVerify recover ctx now payload reqs := by
  obtain ⟨net, sch, authOpt, sigOpt⟩ := payload
  cases authOpt with
  | none => cases sigOpt <;> rfl
  | some auth =>
    cases sigOpt with
    | none => rfl
    | some sig =>
      by_cases hsig : sig = ""
      · simp [verifyPaymentLocally, specVerify, specStructuralStage, hsig]
      · by_cases hnet : net = reqs.network
        · by_cases hrec : recipientMatches auth.toAddr reqs.payTo = true
          · have hstage : specRecipientStage auth reqs = none := by
              unfold specRecipientStage
              unfold recipientMatches at hrec
              cases hTo : auth.toAddr with
              | none => rw [hTo] at hrec; exact absurd hrec (by simp)
              | some t => rw [hTo] at hrec; simp_all
            cases hAm : specAmountStage auth reqs with
            | some r =>
              simp [verifyPaymentLocally, specVerify, specStructuralStage, specNetworkStage,
                hsig, hnet, hrec, hstage, amountCheck_eq_specAmountStage, hAm]
            | none =>
              cases hTm : timingSection now auth.validAfter auth.validBefore with
              | some r =>
                simp [verifyPaymentLocally, specVerify, specStructuralStage, specNetworkStage,
                  hsig, hnet, hrec, hstage, amountCheck_eq_specAmountStage, hAm,
                  specTimingStage, hTm]
              | none =>
                simp [verifyPaymentLocally, specVerify, specStructuralStage, specNetworkStage,
                  hsig, hnet, hrec, hstage, amountCheck_eq_specAmountStage, hAm,
                  specTimingStage, hTm]
          · have hstage : specRecipientStage auth reqs = some recipientMismatchReason := by
              unfold specRecipientStage
              unfold recipientMatches at hrec
              cases hTo : auth.toAddr with
              | none => rfl
              | some t => rw [hTo] at hrec; simp_all
            simp [verifyPaymentLocally, specVerify, specStructuralStage, specNetworkStage,
              hsig, hnet, hrec, hstage]
        · simp [verifyPaymentLocally, specVerify, specStructuralStage, specNetworkStage,
            hsig, hnet]

/-! ### Sample concrete inputs for evaluating the model -/

/-- A sample requirement as the constructor builds it for `base-sepolia` at a
price of 0.01 (required amount `"10000"` atomic units). -/
def reqS : PaymentRequirements :=
  { scheme := "exact"
    network := "base-sepolia"
    asset := "0x036CbD53842c5426634e7929541eC2318f3dCF7e"
    payTo := "0xAbCdEf0123456789AbCdEf0123456789AbCdEf01"
    maxAmountRequired := "10000"
    resource := "https://oracle.local/query"
    description := "Reputation scoring oracle query"
    mimeType := "application/json"
    maxTimeoutSeconds := 600
    extraName := "USDC"
    extraVersion := "2" }

def ctxS : EngineCtx := { assetName := "USDC", chainId := some 84532 }

def payerS : String := "0x1111111111111111111111111111111111111111"

/-- A sample authorization whose recipient matches `reqS.payTo` up to case and
whose validity window contains `nowS`, parameterized by the amount value. -/
def authS (value : JsVal) : Authorization :=
  { fromAddr := some payerS
    toAddr := some "0xabcdef0123456789abcdef0123456789abcdef01"
    value := some value
    validAfter := some (JsVal.vNum 0)
    validBefore := some (JsVal.vNum 2000000000)
    nonce := some "0x0101010101010101010101010101010101010101010101010101010101010101" }

def payloadS (value : JsVal) : PaymentPayload :=
  { network := "base-sepolia"
    scheme := "exact"
    authorization := some (authS value)
    signature := some "0xsigbytes" }

/-- A recovery oracle that recovers the sample payer (a correctly signed
payload). -/
def recoverS : Recover := fun _ _ _ => Except.ok payerS

def nowS : Nat := 1760000000

/-- Claim C1: local verification performs its checks in the specified order,
short-circuiting at the first failure (proved as coincidence with the
staged specification algorithm on every payload); on the engine's fixed
requirement of 10000 atomic units, an amount of exactly 10000 verifies, an
amount of 9999 (one atomic unit below) fails with the amount-insufficiency
reason, and a malformed amount string fails with the invalid-amount reason;
only full success returns `isValid` true with the recovered payer. -/
theorem claim_C1_ordered_local_verification :
    (∀ (recover : Recover) (ctx : EngineCtx) (now : Nat)
        (payload : PaymentPayload) (reqs : PaymentRequirements),
      verifyPaymentLocally recover ctx now payload reqs
        = specVerify recover ctx now payload reqs)
    ∧ verifyPaymentLocally recoverS ctxS nowS (payloadS (JsVal.vStr "10000")) reqS
        = { isValid := true, payer := some payerS, invalidReason := none }
    ∧ verifyPaymentLocally recoverS ctxS nowS (payloadS (JsVal.vStr "9999")) reqS
        = { isValid := false, payer := none, invalidReason := some amountInsufficientReason }
    ∧ verifyPaymentLocally recoverS ctxS nowS (payloadS (JsVal.vStr "1e4")) reqS
        = { isValid := false, payer := none, invalidReason := some invalidAmountReason } :=
  ⟨verifyPaymentLocally_eq_specVerify, by decide, by decide, by decide⟩

/-- Claim C2: for every authorization whose timing fields parse as numbers,
the timing check at current time `t` passes exactly when
`validAfter ≤ t ∧ t < validBefore`; a `validBefore` equal to the current time
fails with the expired reason (exclusive bound), a `validAfter` equal to the
current time passes (inclusive bound), and `t < validAfter` fails with the
not-yet-valid reason. -/
theorem claim_C2_timing_window :
    ∀ (t : Nat) (validAfterNum validBeforeNum : Int),
      (timingCheck t validAfterNum validBeforeNum = none
        ↔ validAfterNum ≤ (t : Int) ∧ (t : Int) < validBeforeNum)
      ∧ (validAfterNum ≤ (t : Int) →
          timingCheck t validAfterNum (t : Int) = some expiredReason)
      ∧ ((t : Int) < validBeforeNum →
          timingCheck t (t : Int) validBeforeNum = none)
      ∧ ((t : Int) < validAfterNum →
          timingCheck t validAfterNum validBeforeNum = some notYetValidReason) := by
  intro t va vb
  refine ⟨?_, ?_, ?_, ?_⟩
  · constructor
    · intro h
      unfold timingCheck at h
      split_ifs at h with h1 h2
      all_goals first
      | exact Option.noConfusion h
      | omega
    · intro h
      unfold timingCheck
      rw [if_neg (by omega), if_neg (by omega)]
  · intro h
    unfold timingCheck
    rw [if_neg (by omega), if_pos (by omega)]
  · intro h
    unfold timingCheck
    rw [if_neg (by omega), if_neg (by omega)]
  · intro h
    unfold timingCheck
    rw [if_pos (by omega)]

theorem claim_C2_witness :
    timingCheck 100 50 100 = some expiredReason
    ∧ timingCheck 100 100 101 = none
    ∧ timingCheck 100 101 200 = some notYetValidReason :=
  ⟨(claim_C2_timing_window 100 50 0).2.1 (by decide),
   (claim_C2_timing_window 100 0 101).2.2.1 (by decide),
   (claim_C2_timing_window 100 101 200).2.2.2 (by decide)⟩

/-- Claim C8: the recipient-match result of local verification is invariant
under letter-case changes of the authorization `to` field, and a `to` field
differing only in case from the requirement payee passes the recipient
check. -/
theorem claim_C8_recipient_case_insensitive :
    ∀ (payTo t1 t2 : String),
      jsToLower t1 = jsToLower t2 →
      (recipientMatches (some t1) payTo = recipientMatches (some t2) payTo)
      ∧ (jsToLower t1 = jsToLower payTo → recipientMatches (some t1) payTo = true) := by
  intro payTo t1 t2 h
  refine ⟨?_, ?_⟩
  · simp [recipientMatches, h]
  · intro h2
    simp [recipientMatches, h2]

theorem claim_C8_witness :
    (recipientMatches (some "0xAbCdEf01") "0xABCDEF01"
        = recipientMatches (some "0xabcdef01") "0xABCDEF01")
    ∧ recipientMatches (some "0xAbCdEf01") "0xABCDEF01" = true := by
  have h := claim_C8_recipient_case_insensitive "0xABCDEF01" "0xAbCdEf01" "0xabcdef01" (by decide)
  exact ⟨h.1, h.2 (by decide)⟩

/-- Claim C9: local verification is deterministic — two calls with an
identical payload, an identical requirement, and the same clock reading (and
the same deterministic recovery function) return identical results. -/
theorem claim_C9_local_verification_deterministic :
    ∀ (recover : Recover) (ctx : EngineCtx) (now : Nat)
      (p1 p2 : PaymentPayload) (r1 r2 : PaymentRequirements),
      p1 = p2 → r1 = r2 →
      verifyPaymentLocally recover ctx now p1 r1
        = verifyPaymentLocally recover ctx now p2 r2 := by
  intro recover ctx now p1 p2 r1 r2 h1 h2
  rw [h1, h2]

theorem claim_C9_witness :
    verifyPaymentLocally recoverS ctxS nowS (payloadS (JsVal.vStr "10000")) reqS
      = verifyPaymentLocally recoverS ctxS nowS (payloadS (JsVal.vStr "10000")) reqS :=
  claim_C9_local_verification_deterministic recoverS ctxS nowS _ _ _ _ rfl rfl

/-! ### Claim C10: missing timing fields -/

/-- An authorization with a future `validAfter` and no `validBefore`. -/
def authC10 : Authorization :=
  { fromAddr := some payerS
    toAddr := some "0xabcdef0123456789abcdef0123456789abcdef01"
    value := some (JsVal.vStr "10000")
    validAfter := some (JsVal.vNum 2000000000)
    validBefore := none
    nonce := some "0x0202020202020202020202020202020202020202020202020202020202020202" }

def payloadC10 : PaymentPayload :=
  { network := "base-sepolia"
    scheme := "exact"
    authorization := some authC10
    signature := some "0xsigbytes" }

/-- Counterexample to claim C10 as stated: a payload with no `validBefore`
does not always fail with the expired reason — with a still-future
`validAfter` (2000000000 > the current time 1760000000) local verification
fails with the not-yet-valid reason instead. -/
theorem claim_C10_counterexample :
    verifyPaymentLocally recoverS ctxS nowS payloadC10 reqS
      = { isValid := false, payer := none, invalidReason := some notYetValidReason }
    ∧ notYetValidReason ≠ expiredReason :=
  ⟨by decide, by decide⟩

theorem jsTimingNumber_none : jsTimingNumber none = some 0 := rfl

theorem jsTimingNumber_num (n : Int) : jsTimingNumber (some (JsVal.vNum n)) = some n := rfl

/-- On an int `b` the timing check with `validAfter` 0 never reports
not-yet-valid (0 never exceeds the clock). -/
theorem timingCheck_zero_not_notYet (now : Nat) (b : Int) :
    timingCheck now 0 b ≠ some notYetValidReason := by
  intro hcontra
  unfold timingCheck at hcontra
  split_ifs at hcontra with h1 h2
  all_goals first
  | omega
  | exact absurd (Option.some.inj hcontra) (by decide)

/-- Claim C10, amended: a missing (absent or null) `validAfter` or
`validBefore` is substituted by 0 instead of being rejected with the
invalid-timing-fields reason; a payload with no `validAfter` never fails the
not-yet-valid check; a payload with no `validBefore` fails with the expired
reason whenever its (possibly substituted) `validAfter` does not exceed the
current time — in particular always when both fields are missing. -/
theorem claim_C10_missing_timing_defaults :
    ∀ (now : Nat) (va vb : Option JsVal) (a : Int),
      (timingSection now none vb = timingSection now (some (JsVal.vNum 0)) vb)
      ∧ (timingSection now va none = timingSection now va (some (JsVal.vNum 0)))
      ∧ (timingSection now none vb ≠ some notYetValidReason)
      ∧ (timingSection now none none = some expiredReason)
      ∧ (a ≤ (now : Int) →
          timingSection now (some (JsVal.vNum a)) none = some expiredReason) := by
  intro now va vb a
  refine ⟨rfl, rfl, ?_, ?_, ?_⟩
  · intro hcontra
    cases hvb : jsTimingNumber vb with
    | none =>
      rw [show timingSection now none vb = some invalidTimingReason by
        simp [timingSection, jsTimingNumber_none, hvb]] at hcontra
      exact absurd (Option.some.inj hcontra) (by decide)
    | some b =>
      rw [show timingSection now none vb = timingCheck now 0 b by
        simp [timingSection, jsTimingNumber_none, hvb]] at hcontra
      exact timingCheck_zero_not_notYet now b hcontra
  · rw [show timingSection now none none = timingCheck now 0 0 by
      simp [timingSection, jsTimingNumber_none]]
    unfold timingCheck
    rw [if_neg (by omega), if_pos (by omega)]
  · intro h
    rw [show timingSection now (some (JsVal.vNum a)) none = timingCheck now a 0 by
      simp [timingSection, jsTimingNumber_none, jsTimingNumber_num]]
    unfold timingCheck
    rw [if_neg (by omega), if_pos (by omega)]

theorem claim_C10_witness :
    timingSection 1000 (some (JsVal.vNum 500)) none = some expiredReason :=
  (claim_C10_missing_timing_defaults 1000 none none 500).2.2.2.2 (by decide)

/-- Claim C3: the requirement builder scales the decimal price by the fixed
factor 1,000,000 and truncates (floor), never rounding: price 0.01 yields
exactly `"10000"`, price 0.015 yields `"15000"` and not `"20000"`, and for
every nonnegative price the atomic amount is the unique integer within 1
below the scaled price. -/
theorem claim_C3_price_truncation :
    getAtomicAmount (1/100) = "10000"
    ∧ getAtomicAmount (15/1000) = "15000"
    ∧ getAtomicAmount (15/1000) ≠ "20000"
    ∧ (∀ q : ℚ, 0 ≤ q →
        0 ≤ atomicUnits q
        ∧ (atomicUnits q : ℚ) ≤ q * 1000000
        ∧ q * 1000000 < (atomicUnits q : ℚ) + 1) := by
  have h1 : atomicUnits (1/100) = 10000 := by unfold atomicUnits; norm_num
  have h2 : atomicUnits (15/1000) = 15000 := by unfold atomicUnits; norm_num
  refine ⟨?_, ?_, ?_, ?_⟩
  · unfold getAtomicAmount
    rw [h1]
    rfl
  · unfold getAtomicAmount
    rw [h2]
    rfl
  · unfold getAtomicAmount
    rw [h2]
    decide
  · intro q hq
    refine ⟨Int.floor_nonneg.mpr (mul_nonneg hq (by norm_num)), Int.floor_le _,
      Int.lt_floor_add_one _⟩

theorem claim_C3_witness :
    0 ≤ atomicUnits (15/1000)
    ∧ (atomicUnits (15/1000) : ℚ) ≤ (15/1000) * 1000000
    ∧ ((15 : ℚ)/1000) * 1000000 < (atomicUnits (15/1000) : ℚ) + 1 :=
  claim_C3_price_truncation.2.2.2 (15/1000) (by norm_num)

/-- Claim C4: in facilitator mode, every failing delegated call (timeout,
non-2xx HTTP status, transport error) makes `verifyPayment` and
`settlePayment` return exactly the local result on the same inputs; in
direct mode the delegated call is never attempted (the result does not
depend on the delegate outcome at all). -/
theorem claim_C4_facilitator_fallback :
    ∀ (facilitatorUrl : Option String) (recover : Recover) (ctx : EngineCtx) (now : Nat)
      (payload : PaymentPayload) (reqs : PaymentRequirements)
      (walletConfigured : Bool) (sigParse : String → Except String SigParts)
      (chain : ChainOutcome),
      (verifyPayment SettlementMode.facilitator facilitatorUrl FacOutcome.timeout
          recover ctx now payload reqs = verifyPaymentLocally recover ctx now payload reqs)
      ∧ (∀ status body,
          verifyPayment SettlementMode.facilitator facilitatorUrl
              (FacOutcome.httpError status body) recover ctx now payload reqs
            = verifyPaymentLocally recover ctx now payload reqs)
      ∧ (∀ m,
          verifyPayment SettlementMode.facilitator facilitatorUrl
              (FacOutcome.transportError m) recover ctx now payload reqs
            = verifyPaymentLocally recover ctx now payload reqs)
      ∧ (settlePayment SettlementMode.facilitator facilitatorUrl FacOutcome.timeout
            walletConfigured sigParse chain payload reqs
          = settleOnChain walletConfigured sigParse chain payload reqs)
      ∧ (∀ status body,
          settlePayment SettlementMode.facilitator facilitatorUrl
              (FacOutcome.httpError status body) walletConfigured sigParse chain payload reqs
            = settleOnChain walletConfigured sigParse chain payload reqs)
      ∧ (∀ m,
          settlePayment SettlementMode.facilitator facilitatorUrl
              (FacOutcome.transportError m) walletConfigured sigParse chain payload reqs
            = settleOnChain walletConfigured sigParse chain payload reqs)
      ∧ (∀ fac : FacOutcome VerifyResult,
          verifyPayment SettlementMode.direct facilitatorUrl fac recover ctx now payload reqs
            = verifyPaymentLocally recover ctx now payload reqs)
      ∧ (∀ fac : FacOutcome SettlementResult,
          settlePayment SettlementMode.direct facilitatorUrl fac walletConfigured sigParse
              chain payload reqs
            = settleOnChain walletConfigured sigParse chain payload reqs) := by
  intro url recover ctx now payload reqs wallet sigParse chain
  refine ⟨?_, ?_, ?_, ?_, ?_, ?_, fun fac => rfl, fun fac => rfl⟩ <;>
    (intros; cases url <;> rfl)

/-- Well-formed failure shape of a verification result (the claim wording:
valid false comes with a reason). -/
def wfVerifyShape (r : VerifyResult) : Prop := r.isValid = false → r.invalidReason ≠ none

/-- Well-formed failure shape of a settlement result. -/
def wfSettleShape (r : SettlementResult) : Prop := r.success = false → r.errorReason ≠ none

/-- Every result of local verification has a well-formed failure shape. -/
theorem verifyPaymentLocally_wf (recover : Recover) (ctx : EngineCtx) (now : Nat)
    (payload : PaymentPayload) (reqs : PaymentRequirements) :
    wfVerifyShape (verifyPaymentLocally recover ctx now payload reqs) := by
  unfold wfVerifyShape verifyPaymentLocally signatureStage
  repeat' split
  all_goals simp

/-- Every result of local settlement has a well-formed failure shape. -/
theorem settleOnChain_wf (walletConfigured : Bool)
    (sigParse : String → Except String SigParts) (chain : ChainOutcome)
    (payload : PaymentPayload) (reqs : PaymentRequirements) :
    wfSettleShape (settleOnChain walletConfigured sigParse chain payload reqs) := by
  unfold wfSettleShape settleOnChain
  repeat' split
  all_goals simp

/-- A successful delegated call returns exactly the delegate's parsed
response. -/
theorem callFacilitatorModel_ok {α : Type} (endpoint : String) (url : Option String)
    (fac : FacOutcome α) (r : α) :
    callFacilitatorModel endpoint url fac = Except.ok r → fac = FacOutcome.ok r := by
  unfold callFacilitatorModel
  cases url with
  | none => intro h; exact Except.noConfusion h
  | some u =>
    cases fac with
    | ok x => intro h; injection h with h; rw [h]
    | timeout => intro h; exact Except.noConfusion h
    | httpError status body => intro h; exact Except.noConfusion h
    | transportError m => intro h; exact Except.noConfusion h

/-- Claim C5: the public `verifyPayment` and `settlePayment` entry points are
total functions into typed result values (the model of every thrown
exception is caught along the way), and — provided a delegate 2xx response
is itself well-shaped — every failure result carries a reason, so callers
branch on the boolean rather than catching exceptions. -/
theorem claim_C5_typed_results :
    ∀ (mode : SettlementMode) (url : Option String)
      (facV : FacOutcome VerifyResult) (facS : FacOutcome SettlementResult)
      (recover : Recover) (ctx : EngineCtx) (now : Nat)
      (payload : PaymentPayload) (reqs : PaymentRequirements)
      (walletConfigured : Bool) (sigParse : String → Except String SigParts)
      (chain : ChainOutcome),
      (∀ r, facV = FacOutcome.ok r → wfVerifyShape r) →
      (∀ r, facS = FacOutcome.ok r → wfSettleShape r) →
      wfVerifyShape (verifyPayment mode url facV recover ctx now payload reqs)
      ∧ wfSettleShape (settlePayment mode url facS walletConfigured sigParse chain payload reqs) := by
  intro mode url facV facS recover ctx now payload reqs wallet sigParse chain hV hS
  constructor
  · cases mode with
    | direct => exact verifyPaymentLocally_wf recover ctx now payload reqs
    | facilitator =>
      unfold verifyPayment
      cases hcall : callFacilitatorModel "verify" url facV with
      | ok r => exact hV r (callFacilitatorModel_ok _ _ _ _ hcall)
      | error e => exact verifyPaymentLocally_wf recover ctx now payload reqs
  · cases mode with
    | direct => exact settleOnChain_wf wallet sigParse chain payload reqs
    | facilitator =>
      unfold settlePayment
      cases hcall : callFacilitatorModel "settle" url facS with
      | ok r => exact hS r (callFacilitatorModel_ok _ _ _ _ hcall)
      | error e => exact settleOnChain_wf wallet sigParse chain payload reqs

theorem claim_C5_witness :
    wfVerifyShape (verifyPayment SettlementMode.direct none FacOutcome.timeout
        recoverS ctxS nowS (payloadS (JsVal.vStr "10000")) reqS)
    ∧ wfSettleShape (settlePayment SettlementMode.direct none FacOutcome.timeout
        false (fun _ => Except.error "unparsed") (ChainOutcome.mined none)
        (payloadS (JsVal.vStr "10000")) reqS) :=
  claim_C5_typed_results SettlementMode.direct none FacOutcome.timeout FacOutcome.timeout
    recoverS ctxS nowS (payloadS (JsVal.vStr "10000")) reqS false
    (fun _ => Except.error "unparsed") (ChainOutcome.mined none)
    (fun _ h => FacOutcome.noConfusion h) (fun _ h => FacOutcome.noConfusion h)

/-- Claim C6: for local (direct) settlement with a configured wallet and a
payload whose authorization, signature, numeric conversions and signature
parse all succeed, the reported success is exactly a mined receipt with
status 1 (not mere broadcast); a mined transaction whose receipt status is
not 1 — e.g. the simulated contract revert of a second submission of an
already-used nonce — yields success false with reason
"Transaction reverted" while still carrying the transaction hash. The model
is a total function, so no input crashes it. -/
theorem claim_C6_settlement_receipt :
    ∀ (sigParse : String → Except String SigParts) (chain : ChainOutcome)
      (payload : PaymentPayload) (auth : Authorization) (sig : String)
      (reqs : PaymentRequirements) (parts : SigParts),
      payload.authorization = some auth →
      payload.signature = some sig →
      sig ≠ "" →
      jsTruthyVal auth.value = true →
      (∃ v, auth.value.bind valueToBigInt = some v) →
      (∃ a, timingToBigInt auth.validAfter = some a) →
      (∃ b, timingToBigInt auth.validBefore = some b) →
      sigParse sig = Except.ok parts →
      ((settleOnChain true sigParse chain payload reqs).success = true
        ↔ ∃ r : TxReceipt, chain = ChainOutcome.mined (some r) ∧ r.status = 1)
      ∧ (∀ r : TxReceipt, chain = ChainOutcome.mined (some r) → r.status ≠ 1 →
          settleOnChain true sigParse chain payload reqs
            = { success := false, transaction := some r.hash, network := reqs.network,
                payer := auth.fromAddr, errorReason := some "Transaction reverted" }) := by
  intro sigParse chain payload auth sig reqs parts hAuth hSig hne hval hconv hva hvb hparse
  obtain ⟨v, hv⟩ := hconv
  obtain ⟨a, ha⟩ := hva
  obtain ⟨b, hb⟩ := hvb
  constructor
  · cases chain with
    | sendError e =>
      simp [settleOnChain, hAuth, hSig, hne, hval, hv, ha, hb, hparse]
    | mined receipt =>
      cases receipt with
      | none => simp [settleOnChain, hAuth, hSig, hne, hval, hv, ha, hb, hparse]
      | some r =>
        by_cases hst : r.status = 1
        · simp [settleOnChain, hAuth, hSig, hne, hval, hv, ha, hb, hparse, hst]
        · simp [settleOnChain, hAuth, hSig, hne, hval, hv, ha, hb, hparse, hst]
  · intro r hchain hst
    subst hchain
    simp [settleOnChain, hAuth, hSig, hne, hval, hv, ha, hb, hparse, hst]

def sigParseW : String → Except String SigParts :=
  fun _ => Except.ok { v := 27, r := "0xr", s := "0xs" }

def receiptW : TxReceipt := { status := 0, hash := "0xdeadbeef" }

theorem claim_C6_witness :
    settleOnChain true sigParseW (ChainOutcome.mined (some receiptW))
        (payloadS (JsVal.vStr "10000")) reqS
      = { success := false, transaction := some "0xdeadbeef", network := reqS.network,
          payer := some payerS, errorReason := some "Transaction reverted" } :=
  (claim_C6_settlement_receipt sigParseW (ChainOutcome.mined (some receiptW))
      (payloadS (JsVal.vStr "10000")) (authS (JsVal.vStr "10000")) "0xsigbytes" reqS
      { v := 27, r := "0xr", s := "0xs" }
      rfl rfl (by decide) (by decide) ⟨10000, by decide⟩ ⟨0, by decide⟩
      ⟨2000000000, by decide⟩ rfl).2 receiptW rfl (by decide)

/-! ### Claim C7: constructor asset resolution -/

def walletInitOk : String → Except String Unit := fun _ => Except.ok ()

/-- Options with an unknown network and an asset-address override but no
asset-name override: an override was supplied, yet construction still
fails (with the missing-asset-name error). -/
def optsC7 : MerchantExecutorOptions :=
  { payToAddress := "0x2222222222222222222222222222222222222222"
    network := "unknown-network"
    price := 1/100
    assetAddress := some "0x1111111111111111111111111111111111111111" }

/-- Counterexample to claim C7 as stated: construction fails even though an
explicit asset-address override was supplied for the unknown network,
refuting that construction fails only when no asset-address or asset-name
override was supplied. -/
theorem claim_C7_counterexample :
    isErr (constructMerchant walletInitOk optsC7) = true
    ∧ optsC7.assetAddress.isSome = true :=
  ⟨by decide, by decide⟩

/-- Every built-in registry entry carries a nonempty asset address and asset
name. -/
theorem builtinNetworks_nonempty (n : String) (cfg : BuiltinCfg) :
    builtinNetworks n = some cfg → cfg.assetAddress ≠ "" ∧ cfg.assetName ≠ "" := by
  intro h
  unfold builtinNetworks at h
  by_cases h1 : n = "base"
  · rw [if_pos h1] at h
    injection h with h
    subst h
    exact ⟨by decide, by decide⟩
  · rw [if_neg h1] at h
    by_cases h2 : n = "base-sepolia"
    · rw [if_pos h2] at h
      injection h with h
      subst h
      exact ⟨by decide, by decide⟩
    · rw [if_neg h2] at h
      by_cases h3 : n = "polygon"
      · rw [if_pos h3] at h
        injection h with h
        subst h
        exact ⟨by decide, by decide⟩
      · rw [if_neg h3] at h
        by_cases h4 : n = "polygon-amoy"
        · rw [if_pos h4] at h
          injection h with h
          subst h
          exact ⟨by decide, by decide⟩
        · rw [if_neg h4] at h
          by_cases h5 : n = "avalanche-fuji"
          · rw [if_pos h5] at h
            injection h with h
            subst h
            exact ⟨by decide, by decide⟩
          · rw [if_neg h5] at h
            by_cases h6 : n = "avalanche"
            · rw [if_pos h6] at h
              injection h with h
              subst h
              exact ⟨by decide, by decide⟩
            · rw [if_neg h6] at h
              by_cases h7 : n = "iotex"
              · rw [if_pos h7] at h
                injection h with h
                subst h
                exact ⟨by decide, by decide⟩
              · rw [if_neg h7] at h
                by_cases h8 : n = "sei"
                · rw [if_pos h8] at h
                  injection h with h
                  subst h
                  exact ⟨by decide, by decide⟩
                · rw [if_neg h8] at h
                  by_cases h9 : n = "sei-testnet"
                  · rw [if_pos h9] at h
                    injection h with h
                    subst h
                    exact ⟨by decide, by decide⟩
                  · rw [if_neg h9] at h
                    by_cases h10 : n = "peaq"
                    · rw [if_pos h10] at h
                      injection h with h
                      subst h
                      exact ⟨by decide, by decide⟩
                    · rw [if_neg h10] at h
                      by_cases h11 : n = "solana-devnet"
                      · rw [if_pos h11] at h
                        injection h with h
                        subst h
                        exact ⟨by decide, by decide⟩
                      · rw [if_neg h11] at h
                        by_cases h12 : n = "solana"
                        · rw [if_pos h12] at h
                          injection h with h
                          subst h
                          exact ⟨by decide, by decide⟩
                        · rw [if_neg h12] at h
                          exact Option.noConfusion h

/-- Claim C7, amended: for configurations without a private key (where the
asset checks are the only failure sources), construction fails exactly when
the configured network is not in the built-in registry and at least one of
the asset-address / asset-name overrides is missing; a supplied (nonempty)
override always takes precedence over the registry default, so the engine
never guesses an asset. -/
theorem claim_C7_construction_failure :
    ∀ (walletInit : String → Except String Unit) (o : MerchantExecutorOptions),
      o.privateKey = none →
      (∀ s, o.assetAddress = some s → s ≠ "") →
      (∀ s, o.assetName = some s → s ≠ "") →
      (isErr (constructMerchant walletInit o) = true
        ↔ builtinNetworks o.network = none
            ∧ (o.assetAddress = none ∨ o.assetName = none))
      ∧ (∀ addr cfg, o.assetAddress = some addr →
          constructMerchant walletInit o = Except.ok cfg →
          cfg.requirements.asset = addr)
      ∧ (∀ nm cfg, o.assetName = some nm →
          constructMerchant walletInit o = Except.ok cfg → cfg.assetName = nm) := by
  intro winit o hpk hAddrNE hNameNE
  have hws : walletSetup winit o = Except.ok false := by
    unfold walletSetup optTruthy
    rw [hpk]
    rfl
  cases hA : o.assetAddress with
  | some addr =>
    have haddr : addr ≠ "" := hAddrNE addr hA
    have hra : resolvedAssetAddress o = some addr := by
      simp [resolvedAssetAddress, hA, Option.orElse]
    cases hN : o.assetName with
    | some nm =>
      have hnm : nm ≠ "" := hNameNE nm hN
      have hrn : resolvedAssetName o = some nm := by
        simp [resolvedAssetName, hN, Option.orElse]
      have hC : constructMerchant winit o
          = Except.ok (mkEngineFromOptions o addr nm false) := by
        simp [constructMerchant, hra, hrn, haddr, hnm, hws]
      refine ⟨?_, ?_, ?_⟩
      · rw [hC]
        simp [isErr]
      · intro addr0 cfg hA0 hok
        rw [hC] at hok
        injection hA0 with hA0
        injection hok with hok
        rw [← hok, ← hA0]
        rfl
      · intro nm0 cfg hN0 hok
        rw [hC] at hok
        injection hN0 with hN0
        injection hok with hok
        rw [← hok, ← hN0]
        rfl
    | none =>
      cases hB : builtinNetworks o.network with
      | none =>
        have hrn : resolvedAssetName o = none := by
          simp [resolvedAssetName, hN, hB, Option.orElse]
        have hC : constructMerchant winit o = Except.error (assetNameErrorMsg o.network) := by
          simp [constructMerchant, hra, hrn, haddr]
        refine ⟨?_, ?_, ?_⟩
        · rw [hC]
          simp [isErr, hB]
        · intro addr0 cfg hA0 hok
          rw [hC] at hok
          exact Except.noConfusion hok
        · intro nm0 cfg hN0 hok
          rw [hC] at hok
          exact Except.noConfusion hok
      | some bcfg =>
        have hrn : resolvedAssetName o = some bcfg.assetName := by
          simp [resolvedAssetName, hN, hB, Option.orElse]
        have hnm : bcfg.assetName ≠ "" := (builtinNetworks_nonempty o.network bcfg hB).2
        have hC : constructMerchant winit o
            = Except.ok (mkEngineFromOptions o addr bcfg.assetName false) := by
          simp [constructMerchant, hra, hrn, haddr, hnm, hws]
        refine ⟨?_, ?_, ?_⟩
        · rw [hC]
          simp [isErr, hB]
        · intro addr0 cfg hA0 hok
          rw [hC] at hok
          injection hA0 with hA0
          injection hok with hok
          rw [← hok, ← hA0]
          rfl
        · intro nm0 cfg hN0 hok
          exact Option.noConfusion hN0
  | none =>
    cases hB : builtinNetworks o.network with
    | none =>
      have hra : resolvedAssetAddress o = none := by
        simp [resolvedAssetAddress, hA, hB, Option.orElse]
      have hC : constructMerchant winit o = Except.error (assetAddressErrorMsg o.network) := by
        simp [constructMerchant, hra]
      refine ⟨?_, ?_, ?_⟩
      · rw [hC]
        simp [isErr, hB]
      · intro addr0 cfg hA0 hok
        rw [hC] at hok
        exact Except.noConfusion hok
      · intro nm0 cfg hN0 hok
        rw [hC] at hok
        exact Except.noConfusion hok
    | some bcfg =>
      have hra : resolvedAssetAddress o = some bcfg.assetAddress := by
        simp [resolvedAssetAddress, hA, hB, Option.orElse]
      have haddr : bcfg.assetAddress ≠ "" := (builtinNetworks_nonempty o.network bcfg hB).1
      cases hN : o.assetName with
      | some nm =>
        have hnm : nm ≠ "" := hNameNE nm hN
        have hrn : resolvedAssetName o = some nm := by
          simp [resolvedAssetName, hN, Option.orElse]
        have hC : constructMerchant winit o
            = Except.ok (mkEngineFromOptions o bcfg.assetAddress nm false) := by
          simp [constructMerchant, hra, hrn, haddr, hnm, hws]
        refine ⟨?_, ?_, ?_⟩
        · rw [hC]
          simp [isErr, hB]
        · intro addr0 cfg hA0 hok
          exact Option.noConfusion hA0
        · intro nm0 cfg hN0 hok
          rw [hC] at hok
          injection hN0 with hN0
          injection hok with hok
          rw [← hok, ← hN0]
          rfl
      | none =>
        have hrn : resolvedAssetName o = some bcfg.assetName := by
          simp [resolvedAssetName, hN, hB, Option.orElse]
        have hnm : bcfg.assetName ≠ "" := (builtinNetworks_nonempty o.network bcfg hB).2
        have hC : constructMerchant winit o
            = Except.ok (mkEngineFromOptions o bcfg.assetAddress bcfg.assetName false) := by
          simp [constructMerchant, hra, hrn, haddr, hnm, hws]
        refine ⟨?_, ?_, ?_⟩
        · rw [hC]
          simp [isErr, hB]
        · intro addr0 cfg hA0 hok
          exact Option.noConfusion hA0
        · intro nm0 cfg hN0 hok
          exact Option.noConfusion hN0

/-- Options with an unknown network but both overrides supplied: construction
succeeds. -/
def optsC7W : MerchantExecutorOptions :=
  { payToAddress := "0x2222222222222222222222222222222222222222"
    network := "nowhere"
    price := 1/100
    assetAddress := some "0x3333333333333333333333333333333333333333"
    assetName := some "Test Token" }

theorem claim_C7_witness :
    isErr (constructMerchant walletInitOk optsC7W) = false := by
  have h := (claim_C7_construction_failure walletInitOk optsC7W rfl
    (fun s hs => by
      rw [show optsC7W.assetAddress = some "0x3333333333333333333333333333333333333333" from rfl] at hs
      injection hs with hs
      rw [← hs]
      decide)
    (fun s hs => by
      rw [show optsC7W.assetName = some "Test Token" from rfl] at hs
      injection hs with hs
      rw [← hs]
      decide)).1
  cases hE : isErr (constructMerchant walletInitOk optsC7W) with
  | false => rfl
  | true =>
    rcases h.mp hE with ⟨_, hor⟩
    rcases hor with h1 | h1 <;> exact Option.noConfusion h1

end X402



